import Mathlib

/-!
Shallow embedding of the `integrators` crate's QAWF wrapper
(`src/gsl/qawf.rs`) and proofs about it.

The crate wraps the native GSL routine `gsl_integration_qawf`. The wrapper
struct `QAWF` owns two native workspaces and one weight-function table; its
builder methods configure the lower bound, weight kind and frequency; its
`integrate` method bridges a user closure across the FFI boundary (through a
`LandingPad` that captures failures raised inside the closure), invokes the
native routine once, re-raises any captured failure, and otherwise translates
the native return code into `Ok`/`Err`.

Embedding choices:
* the crate's scalar `Real` (a machine float) is embedded as `ℚ`, which keeps
  every definition executable; no claim here depends on float rounding;
* natively-allocated buffers are modelled by handle identifiers drawn from an
  explicit allocation counter (`Nat`), threaded through the allocating
  operations, so that freshness of buffers is expressible;
* the native routine itself is a black box: `integrate` is parametrised by a
  `NativeEnv` giving an arbitrary outcome (return code, output values, and
  whether the landing pad captured an integrand failure) for each argument
  tuple;
* a Rust panic is a third outcome of a call, distinct from returning
  `Ok`/`Err`, modelled by `RustOutcome.panicked`;
* `integrate` also returns a trace of events (native invocations, re-raise of
  a captured failure) for the temporal claims.
-/

namespace Integrators

/-- Scalar type of the crate (`type Real = f64` in the crate root, not under
`src/`). Embedded as the rationals so that all definitions are executable. -/
abbrev Real := ℚ

/-- Modelled from the spec: a native integration workspace is opaque
natively-allocated scratch memory sized to a requested subinterval capacity
(`GSLIntegrationWorkspace` lives outside `src/`; only its uses are in
`src/gsl/qawf.rs`). `nintervals` is the capacity; `wkspc` is the handle
identifier of the native buffer. -/
structure GSLIntegrationWorkspace where
  nintervals : Nat
  wkspc : Nat
  deriving DecidableEq, Repr

/-- Modelled from the spec: allocation of a fresh workspace of capacity
`nintervals`; the allocation counter `s` supplies a fresh handle. -/
def GSLIntegrationWorkspace.new (nintervals : Nat) (s : Nat) :
    GSLIntegrationWorkspace × Nat :=
  (⟨nintervals, s⟩, s + 1)

/-- Weight-function kind selector (sine or cosine), as in the crate's
`GSLIntegrationQAWOEnum` (declared outside `src/`). -/
inductive GSLIntegrationQAWOEnum where
  | Sine
  | Cosine
  deriving DecidableEq, Repr

/-- Modelled from the spec: the weight-function table is an opaque
natively-allocated descriptor encoding the oscillatory weight function's kind
and frequency, with a capacity that must match the workspace capacity.
`table` is the handle identifier of the native descriptor; `length` is the
interval-length parameter the crate passes on construction. -/
structure GSLIntegrationQAWOTable where
  nintervals : Nat
  omega : Real
  length : Real
  weight : GSLIntegrationQAWOEnum
  table : Nat
  deriving DecidableEq, Repr

/-- Modelled from the spec: allocation of a fresh weight-function table. -/
def GSLIntegrationQAWOTable.new (nintervals : Nat) (omega : Real)
    (length : Real) (weight : GSLIntegrationQAWOEnum) (s : Nat) :
    GSLIntegrationQAWOTable × Nat :=
  (⟨nintervals, omega, length, weight, s⟩, s + 1)

/-- Modelled from the spec: reallocating the table at a new capacity discards
the old descriptor and allocates a fresh one with the same omega, length and
weight kind. -/
def GSLIntegrationQAWOTable.with_nintervals (t : GSLIntegrationQAWOTable)
    (nintervals : Nat) (s : Nat) : GSLIntegrationQAWOTable × Nat :=
  GSLIntegrationQAWOTable.new nintervals t.omega t.length t.weight s

/-- Modelled from the spec: setting the weight function to sin(omega x)
updates the descriptor in place (same native handle, same capacity). -/
def GSLIntegrationQAWOTable.with_sin (t : GSLIntegrationQAWOTable)
    (omega : Real) : GSLIntegrationQAWOTable :=
  { t with omega := omega, weight := GSLIntegrationQAWOEnum.Sine }

/-- Modelled from the spec: setting the weight function to cos(omega x)
updates the descriptor in place (same native handle, same capacity). -/
def GSLIntegrationQAWOTable.with_cos (t : GSLIntegrationQAWOTable)
    (omega : Real) : GSLIntegrationQAWOTable :=
  { t with omega := omega, weight := GSLIntegrationQAWOEnum.Cosine }

/-- The QAWF integrator struct of `src/gsl/qawf.rs`: a lower bound, a main
workspace, a cycle workspace and a weight-function table. -/
structure QAWF where
  lower_bound : Real
  wkspc : GSLIntegrationWorkspace
  cycle_wkspc : GSLIntegrationWorkspace
  table : GSLIntegrationQAWOTable
  deriving DecidableEq, Repr

/-- `QAWF::new(nintervals)`: range (0, inf), weight function sin(x), all
three buffers allocated at capacity `nintervals`. The allocation counter is
threaded explicitly. -/
def QAWF.new (nintervals : Nat) (s : Nat) : QAWF × Nat :=
  let (w, s1) := GSLIntegrationWorkspace.new nintervals s
  let (cw, s2) := GSLIntegrationWorkspace.new nintervals s1
  let (t, s3) :=
    GSLIntegrationQAWOTable.new nintervals 1 1 GSLIntegrationQAWOEnum.Sine s2
  (⟨0, w, cw, t⟩, s3)

/-- `QAWF::with_nintervals(nintervals)`: discards the old workspaces and
allocates new ones, and reallocates the table, all at the new capacity;
the remaining field (`lower_bound`) is taken from `self` (`..self`). -/
def QAWF.with_nintervals (q : QAWF) (nintervals : Nat) (s : Nat) :
    QAWF × Nat :=
  let (w, s1) := GSLIntegrationWorkspace.new nintervals s
  let (cw, s2) := GSLIntegrationWorkspace.new nintervals s1
  let (t, s3) := q.table.with_nintervals nintervals s2
  ({ q with wkspc := w, cycle_wkspc := cw, table := t }, s3)

/-- `QAWF::with_bound(lower_bound)`: updates the integration range to
(lower_bound, inf), keeping every other field (`..self`). -/
def QAWF.with_bound (q : QAWF) (lower_bound : Real) : QAWF :=
  { q with lower_bound := lower_bound }

/-- `QAWF::with_sin(omega)`: updates the weight function to sin(omega x),
keeping every other field (`..self`). -/
def QAWF.with_sin (q : QAWF) (omega : Real) : QAWF :=
  { q with table := q.table.with_sin omega }

/-- `QAWF::with_cos(omega)`: updates the weight function to cos(omega x),
keeping every other field (`..self`). -/
def QAWF.with_cos (q : QAWF) (omega : Real) : QAWF :=
  { q with table := q.table.with_cos omega }

/-- The crate's `IntegrationResult` (declared in the crate root, outside
`src/`): an estimated value and an estimated absolute error. -/
structure IntegrationResult where
  value : Real
  error : Real
  deriving DecidableEq, Repr

/-- Modelled from the spec: the wrapper's error-code type into which a native
return code is converted (`retcode.into()` in `src/gsl/qawf.rs`); it carries
the native code verbatim for caller inspection. -/
structure GSLErrorCode where
  code : Int
  deriving DecidableEq, Repr

/-- The crate's `GSLIntegrationError` (declared outside `src/`): a
native-library error code surfaced to the caller. -/
inductive GSLIntegrationError where
  | GSLError (c : GSLErrorCode)
  deriving DecidableEq, Repr

/-- The native success return code `bindings::GSL_SUCCESS`. -/
def GSL_SUCCESS : Int := 0

/-- A user integrand: maps an input scalar to an output scalar, or fails
(raises a panic) at some inputs, modelled by `none`. -/
abbrev Integrand := Real → Option Real

/-- The argument tuple the wrapper passes to `gsl_integration_qawf`, apart
from the function pointer and the two output pointers: lower bound, absolute
tolerance, subinterval limit, and the three native handles. -/
structure QawfArgs where
  a : Real
  epsabs : Real
  limit : Nat
  wkspc : Nat
  cycle_wkspc : Nat
  table : Nat
  deriving DecidableEq, Repr

/-- Modelled from the spec: the observable outcome of one native
`gsl_integration_qawf` call: the return code, the values written through the
two output pointers, and whether the landing pad captured a failure raised by
the user integrand during native-side evaluation. -/
structure NativeResult where
  retcode : Int
  value : Real
  error : Real
  panicked : Bool
  deriving DecidableEq, Repr

/-- Modelled from the spec: the black-box native environment. `mkGslFn` is
the outcome of `make_gsl_function` (which receives the landing pad around the
integrand and the two bounds, and can fail); `call` gives the outcome of the
native routine for an argument tuple and an integrand. Claims are quantified
over all environments. -/
structure NativeEnv where
  mkGslFn : Integrand → Real → Real → Except GSLIntegrationError Unit
  call : QawfArgs → Integrand → NativeResult

/-- Outcome of a Rust function call that may panic: it either unwinds with a
panic, returns `Err`, or returns `Ok`. -/
inductive RustOutcome (E S : Type) where
  | panicked
  | err (e : E)
  | ok (s : S)
  deriving DecidableEq, Repr

/-- Boolean test for the `ok` outcome. -/
def RustOutcome.isOk {E S : Type} : RustOutcome E S → Bool
  | .ok _ => true
  | _ => false

/-- Observable events of one `integrate` call: an invocation of the native
routine with a given argument tuple, and the re-raising of a captured
integrand failure. The trace lists events in the order they happen. -/
inductive Event where
  | nativeCall (args : QawfArgs)
  | reraise
  deriving DecidableEq, Repr

/-- Boolean test for a native-invocation event. -/
def Event.isNativeCall : Event → Bool
  | .nativeCall _ => true
  | .reraise => false

/-- The argument tuple `integrate` builds for the native call: the stored
lower bound, the requested absolute tolerance, the main workspace's capacity
as the subinterval limit, and the three stored native handles. -/
def QAWF.argsOf (q : QAWF) (epsabs : Real) : QawfArgs :=
  ⟨q.lower_bound, epsabs, q.wkspc.nintervals, q.wkspc.wkspc,
   q.cycle_wkspc.wkspc, q.table.table⟩

/-- `QAWF::integrate` from `src/gsl/qawf.rs`. It wraps the integrand in a
landing pad, builds the GSL function (propagating a failure of
`make_gsl_function` with `?` before any native call), invokes the native
routine once, then calls `lp.maybe_resume_unwind()` — re-raising a captured
integrand failure before the return code is even inspected — and finally
translates a non-success return code into `Err` and a success into `Ok`
carrying the two output values. `epsrel` is received but never used
(`_epsrel` in the source). The second component is the event trace. -/
def QAWF.integrate (env : NativeEnv) (q : QAWF) (f : Integrand)
    (epsrel epsabs : Real) :
    RustOutcome GSLIntegrationError IntegrationResult × List Event :=
  match env.mkGslFn f q.lower_bound (q.lower_bound + 1) with
  | .error e => (.err e, [])
  | .ok _ =>
    let res := env.call (q.argsOf epsabs) f
    if res.panicked then
      (.panicked, [.nativeCall (q.argsOf epsabs), .reraise])
    else if res.retcode ≠ GSL_SUCCESS then
      (.err (.GSLError ⟨res.retcode⟩), [.nativeCall (q.argsOf epsabs)])
    else
      (.ok ⟨res.value, res.error⟩, [.nativeCall (q.argsOf epsabs)])

/-- Every handle identifier stored in a QAWF value is below `s`: the
well-formedness of a value with respect to the allocation counter (every
handle was allocated before the counter reached `s`). -/
def HandlesBelow (q : QAWF) (s : Nat) : Prop :=
  q.wkspc.wkspc < s ∧ q.cycle_wkspc.wkspc < s ∧ q.table.table < s

instance (q : QAWF) (s : Nat) : Decidable (HandlesBelow q s) :=
  inferInstanceAs (Decidable (_ ∧ _ ∧ _))

/-- None of the three buffers of the first value is one of the three buffers
of the second value: the first value holds no old buffer of the second. -/
def NoSharedBuffers (p q : QAWF) : Prop :=
  p.wkspc.wkspc ≠ q.wkspc.wkspc ∧
  p.wkspc.wkspc ≠ q.cycle_wkspc.wkspc ∧
  p.wkspc.wkspc ≠ q.table.table ∧
  p.cycle_wkspc.wkspc ≠ q.wkspc.wkspc ∧
  p.cycle_wkspc.wkspc ≠ q.cycle_wkspc.wkspc ∧
  p.cycle_wkspc.wkspc ≠ q.table.table ∧
  p.table.table ≠ q.wkspc.wkspc ∧
  p.table.table ≠ q.cycle_wkspc.wkspc ∧
  p.table.table ≠ q.table.table

instance (p q : QAWF) : Decidable (NoSharedBuffers p q) :=
  inferInstanceAs (Decidable (_ ∧ _ ∧ _ ∧ _ ∧ _ ∧ _ ∧ _ ∧ _ ∧ _))

/-- The subinterval limit `integrate` passes to the native routine is the
main workspace's capacity, whatever the requested tolerance. -/
def passesOwnCapacity (q : QAWF) : Prop :=
  ∀ epsabs : Real, (q.argsOf epsabs).limit = q.wkspc.nintervals

/-- A QAWF value reachable through the public constructors and builder
operations, starting from any allocation state. -/
inductive Reachable : QAWF → Prop where
  | new : ∀ (n s : Nat), Reachable (QAWF.new n s).1
  | with_nintervals : ∀ (q : QAWF) (n s : Nat), Reachable q →
      Reachable (q.with_nintervals n s).1
  | with_bound : ∀ (q : QAWF) (b : Real), Reachable q →
      Reachable (q.with_bound b)
  | with_sin : ∀ (q : QAWF) (omega : Real), Reachable q →
      Reachable (q.with_sin omega)
  | with_cos : ∀ (q : QAWF) (omega : Real), Reachable q →
      Reachable (q.with_cos omega)

/-! Concrete instances used by witnesses and counterexamples. -/

/-- A concrete integrator: `QAWF::new(1)` run at allocation counter 0. -/
def qawf0 : QAWF := (QAWF.new 1 0).1

/-- A concrete total integrand (never fails). -/
def fZero : Integrand := fun _ => some 0

/-- A concrete environment: `make_gsl_function` succeeds and the native
routine returns code 2 with no captured integrand failure. -/
def envErrTwo : NativeEnv :=
  ⟨fun _ _ _ => Except.ok (), fun _ _ => ⟨2, 0, 0, false⟩⟩

/-- A concrete environment: `make_gsl_function` succeeds, the native routine
returns code 1, and the landing pad captured an integrand failure. -/
def envPanicOne : NativeEnv :=
  ⟨fun _ _ _ => Except.ok (), fun _ _ => ⟨1, 0, 0, true⟩⟩

/-- A concrete environment: `make_gsl_function` succeeds and the native
routine succeeds, writing value 5 and error estimate 1/2. -/
def envOkFive : NativeEnv :=
  ⟨fun _ _ _ => Except.ok (), fun _ _ => ⟨0, 5, 1/2, false⟩⟩

/-! Theorems. -/

/-- Unfolded form of `QAWF.with_nintervals`: the three buffers are the three
handles the allocator hands out at `s`, `s + 1`, `s + 2`, the capacities are
all the new one, the table keeps its omega, length and weight kind, the
lower bound is kept, and the counter advances by three. -/
theorem QAWF.with_nintervals_eq (q : QAWF) (n s : Nat) :
    q.with_nintervals n s =
      (⟨q.lower_bound, ⟨n, s⟩, ⟨n, s + 1⟩,
        ⟨n, q.table.omega, q.table.length, q.table.weight, s + 2⟩⟩, s + 3) :=
  rfl

/-- C1 counterexample: the claim says a non-success native return code always
makes `integrate` return `Err` with that code, but when the landing pad has
also captured an integrand failure, `integrate` re-raises the failure before
inspecting the return code, so it panics instead of returning that `Err`.
Concrete input: `QAWF::new(1)`, a total integrand, and a native call that
returns code 1 with a captured integrand failure. -/
theorem c1_nonsuccess_errs_counterexample :
    (envPanicOne.call (qawf0.argsOf 0) fZero).retcode ≠ GSL_SUCCESS ∧
    (QAWF.integrate envPanicOne qawf0 fZero 0 0).1 = RustOutcome.panicked ∧
    (QAWF.integrate envPanicOne qawf0 fZero 0 0).1 ≠
      RustOutcome.err (GSLIntegrationError.GSLError
        ⟨(envPanicOne.call (qawf0.argsOf 0) fZero).retcode⟩) := by
  refine ⟨by decide, rfl, by decide⟩

/-- C1 (amended): when the native routine returns a non-success code and no
integrand failure was captured, `integrate` returns `Err` carrying exactly
that native code converted into the wrapper's error-code type; and whenever
the native routine returns a non-success code, `integrate` never returns
`Ok` (it returns that `Err` or re-raises a captured integrand failure). -/
theorem c1_nonsuccess_errs (env : NativeEnv) (q : QAWF) (f : Integrand)
    (epsrel epsabs : Real)
    (hmk : env.mkGslFn f q.lower_bound (q.lower_bound + 1) = Except.ok ())
    (hcode : (env.call (q.argsOf epsabs) f).retcode ≠ GSL_SUCCESS) :
    ((env.call (q.argsOf epsabs) f).panicked = false →
      (QAWF.integrate env q f epsrel epsabs).1 =
        RustOutcome.err (GSLIntegrationError.GSLError
          ⟨(env.call (q.argsOf epsabs) f).retcode⟩)) ∧
    (QAWF.integrate env q f epsrel epsabs).1.isOk = false := by
  constructor
  · intro hp
    simp [QAWF.integrate, hmk, hp, hcode]
  · by_cases hp : (env.call (q.argsOf epsabs) f).panicked
    · simp [QAWF.integrate, hmk, hp, RustOutcome.isOk]
    · simp [QAWF.integrate, hmk, hp, hcode, RustOutcome.isOk]

/-- C1 witness: the amended claim at a concrete input (`QAWF::new(1)`, a
total integrand, a native call returning code 2 with no captured failure). -/
theorem c1_nonsuccess_errs_witness :
    ((envErrTwo.call (qawf0.argsOf 0) fZero).panicked = false →
      (QAWF.integrate envErrTwo qawf0 fZero 0 0).1 =
        RustOutcome.err (GSLIntegrationError.GSLError
          ⟨(envErrTwo.call (qawf0.argsOf 0) fZero).retcode⟩)) ∧
    (QAWF.integrate envErrTwo qawf0 fZero 0 0).1.isOk = false :=
  c1_nonsuccess_errs envErrTwo qawf0 fZero 0 0 rfl (by decide)

/-- C2: when the landing pad captured an integrand failure during the native
call, `integrate` re-raises it to the caller (outcome `panicked`, neither
`Ok` nor a swallowed failure), and the event trace is exactly a native
invocation followed by the re-raise, so the re-raise happens strictly after
the native routine has returned control. -/
theorem c2_integrand_failure_reraised (env : NativeEnv) (q : QAWF)
    (f : Integrand) (epsrel epsabs : Real)
    (hmk : env.mkGslFn f q.lower_bound (q.lower_bound + 1) = Except.ok ())
    (hp : (env.call (q.argsOf epsabs) f).panicked = true) :
    (QAWF.integrate env q f epsrel epsabs).1 = RustOutcome.panicked ∧
    (QAWF.integrate env q f epsrel epsabs).2 =
      [Event.nativeCall (q.argsOf epsabs), Event.reraise] := by
  constructor <;> simp [QAWF.integrate, hmk, hp]

/-- C2 witness: the claim at a concrete input (`QAWF::new(1)`, a native call
that captured an integrand failure and returned code 1). -/
theorem c2_integrand_failure_reraised_witness :
    (QAWF.integrate envPanicOne qawf0 fZero 0 0).1 = RustOutcome.panicked ∧
    (QAWF.integrate envPanicOne qawf0 fZero 0 0).2 =
      [Event.nativeCall (qawf0.argsOf 0), Event.reraise] :=
  c2_integrand_failure_reraised envPanicOne qawf0 fZero 0 0 rfl rfl

/-- C3: when the native routine returns `GSL_SUCCESS` and no integrand
failure was captured, `integrate` returns `Ok` with an `IntegrationResult`
whose `value` and `error` fields are exactly the estimated value and the
estimated absolute error the native routine wrote through its output
pointers. -/
theorem c3_success_result (env : NativeEnv) (q : QAWF) (f : Integrand)
    (epsrel epsabs : Real)
    (hmk : env.mkGslFn f q.lower_bound (q.lower_bound + 1) = Except.ok ())
    (hp : (env.call (q.argsOf epsabs) f).panicked = false)
    (hr : (env.call (q.argsOf epsabs) f).retcode = GSL_SUCCESS) :
    (QAWF.integrate env q f epsrel epsabs).1 =
      RustOutcome.ok ⟨(env.call (q.argsOf epsabs) f).value,
        (env.call (q.argsOf epsabs) f).error⟩ := by
  simp [QAWF.integrate, hmk, hp, hr]

/-- C3 witness: the claim at a concrete input (`QAWF::new(1)`, a native call
that succeeds writing value 5 and error estimate 1/2). -/
theorem c3_success_result_witness :
    (QAWF.integrate envOkFive qawf0 fZero 0 0).1 =
      RustOutcome.ok ⟨(envOkFive.call (qawf0.argsOf 0) fZero).value,
        (envOkFive.call (qawf0.argsOf 0) fZero).error⟩ :=
  c3_success_result envOkFive qawf0 fZero 0 0 rfl rfl rfl

/-- C4: every QAWF value reachable through the public constructors and
builder operations has the main workspace, the cycle workspace and the
weight-function table at one common capacity, and `integrate` passes exactly
that common capacity as the subinterval limit of the native call. -/
theorem c4_capacities_match (q : QAWF) (hq : Reachable q) :
    q.wkspc.nintervals = q.cycle_wkspc.nintervals ∧
    q.wkspc.nintervals = q.table.nintervals ∧
    passesOwnCapacity q := by
  induction hq with
  | new n s => exact ⟨rfl, rfl, fun _ => rfl⟩
  | with_nintervals q n s hq ih => exact ⟨rfl, rfl, fun _ => rfl⟩
  | with_bound q b hq ih => exact ⟨ih.1, ih.2.1, fun _ => rfl⟩
  | with_sin q omega hq ih => exact ⟨ih.1, ih.2.1, fun _ => rfl⟩
  | with_cos q omega hq ih => exact ⟨ih.1, ih.2.1, fun _ => rfl⟩

/-- A concrete reachable integrator: `QAWF::new(2).with_bound(3).with_cos(5)`
starting from allocation counter 0. -/
def qawfReach : QAWF := ((QAWF.new 2 0).1.with_bound 3).with_cos 5

/-- C4 witness: the claim at the concrete reachable value
`QAWF::new(2).with_bound(3).with_cos(5)`. -/
theorem c4_capacities_match_witness :
    qawfReach.wkspc.nintervals = qawfReach.cycle_wkspc.nintervals ∧
    qawfReach.wkspc.nintervals = qawfReach.table.nintervals ∧
    passesOwnCapacity qawfReach :=
  c4_capacities_match qawfReach
    (show Reachable (((QAWF.new 2 0).1.with_bound 3).with_cos 5) from
      Reachable.with_cos _ 5 (Reachable.with_bound _ 3 (Reachable.new 2 0)))

/-- C5: the outcome of `integrate` (result and trace alike) does not depend
on the relative-tolerance argument: the source receives it as `_epsrel` and
never uses it; only the absolute tolerance reaches the native routine. -/
theorem c5_epsrel_ignored (env : NativeEnv) (q : QAWF) (f : Integrand)
    (epsrelA epsrelB epsabs : Real) :
    QAWF.integrate env q f epsrelA epsabs =
      QAWF.integrate env q f epsrelB epsabs :=
  rfl

/-- C6: `with_nintervals` keeps the lower bound and the table's omega, length
and weight kind, sets all three capacities to the new count, and the returned
value holds only new buffers: none of its three handles is one of the input's
three handles (given the input's handles predate the allocation counter), the
three new handles are pairwise distinct, and the result is again well formed
with respect to the advanced counter. -/
theorem c6_with_nintervals_atomic (q : QAWF) (n s : Nat)
    (h : HandlesBelow q s) :
    (q.with_nintervals n s).1.lower_bound = q.lower_bound ∧
    (q.with_nintervals n s).1.table.weight = q.table.weight ∧
    (q.with_nintervals n s).1.table.omega = q.table.omega ∧
    (q.with_nintervals n s).1.table.length = q.table.length ∧
    (q.with_nintervals n s).1.wkspc.nintervals = n ∧
    (q.with_nintervals n s).1.cycle_wkspc.nintervals = n ∧
    (q.with_nintervals n s).1.table.nintervals = n ∧
    NoSharedBuffers (q.with_nintervals n s).1 q ∧
    (q.with_nintervals n s).1.wkspc.wkspc ≠
      (q.with_nintervals n s).1.cycle_wkspc.wkspc ∧
    (q.with_nintervals n s).1.wkspc.wkspc ≠
      (q.with_nintervals n s).1.table.table ∧
    (q.with_nintervals n s).1.cycle_wkspc.wkspc ≠
      (q.with_nintervals n s).1.table.table ∧
    HandlesBelow (q.with_nintervals n s).1 (q.with_nintervals n s).2 := by
  obtain ⟨h1, h2, h3⟩ := h
  simp only [QAWF.with_nintervals_eq, NoSharedBuffers, HandlesBelow,
    true_and, and_true]
  omega

/-- C6 witness: the claim at a concrete input (`QAWF::new(1)` built at
counter 0, whose handles are 0, 1, 2, reallocated at capacity 4 from
counter 3). -/
theorem c6_with_nintervals_atomic_witness :
    (qawf0.with_nintervals 4 3).1.lower_bound = qawf0.lower_bound ∧
    (qawf0.with_nintervals 4 3).1.table.weight = qawf0.table.weight ∧
    (qawf0.with_nintervals 4 3).1.table.omega = qawf0.table.omega ∧
    (qawf0.with_nintervals 4 3).1.table.length = qawf0.table.length ∧
    (qawf0.with_nintervals 4 3).1.wkspc.nintervals = 4 ∧
    (qawf0.with_nintervals 4 3).1.cycle_wkspc.nintervals = 4 ∧
    (qawf0.with_nintervals 4 3).1.table.nintervals = 4 ∧
    NoSharedBuffers (qawf0.with_nintervals 4 3).1 qawf0 ∧
    (qawf0.with_nintervals 4 3).1.wkspc.wkspc ≠
      (qawf0.with_nintervals 4 3).1.cycle_wkspc.wkspc ∧
    (qawf0.with_nintervals 4 3).1.wkspc.wkspc ≠
      (qawf0.with_nintervals 4 3).1.table.table ∧
    (qawf0.with_nintervals 4 3).1.cycle_wkspc.wkspc ≠
      (qawf0.with_nintervals 4 3).1.table.table ∧
    HandlesBelow (qawf0.with_nintervals 4 3).1 (qawf0.with_nintervals 4 3).2 :=
  c6_with_nintervals_atomic qawf0 4 3 (by decide)

/-- C7: one `integrate` call invokes the native routine at most once: the
event trace never holds two native invocations, whatever the return code and
whether or not an integrand failure was captured (no internal retries). -/
theorem c7_native_called_at_most_once (env : NativeEnv) (q : QAWF)
    (f : Integrand) (epsrel epsabs : Real) :
    (QAWF.integrate env q f epsrel epsabs).2.countP
      (fun e => Event.isNativeCall e) ≤ 1 := by
  unfold QAWF.integrate
  rcases hm : env.mkGslFn f q.lower_bound (q.lower_bound + 1) with e | u
  · simp
  · by_cases hp : (env.call (q.argsOf epsabs) f).panicked
    · simp [hp, Event.isNativeCall, List.countP_cons]
    · by_cases hr : (env.call (q.argsOf epsabs) f).retcode = GSL_SUCCESS
      · simp [hp, hr, Event.isNativeCall, List.countP_cons]
      · simp [hp, hr, Event.isNativeCall, List.countP_cons]

/-- C8: `QAWF::new(nintervals)` integrates over (0, inf) against sin(x) by
default: the lower bound is 0 and the weight-function table is sine with
angular frequency 1, whatever the capacity and the allocation state. -/
theorem c8_new_defaults (n s : Nat) :
    (QAWF.new n s).1.lower_bound = 0 ∧
    (QAWF.new n s).1.table.weight = GSLIntegrationQAWOEnum.Sine ∧
    (QAWF.new n s).1.table.omega = 1 :=
  ⟨rfl, rfl, rfl⟩

/-- C9: `with_bound` changes only the lower bound: the main workspace, the
cycle workspace and the weight-function table of the returned value are
exactly those of the input. -/
theorem c9_with_bound_frame (q : QAWF) (b : Real) :
    (q.with_bound b).lower_bound = b ∧
    (q.with_bound b).wkspc = q.wkspc ∧
    (q.with_bound b).cycle_wkspc = q.cycle_wkspc ∧
    (q.with_bound b).table = q.table :=
  ⟨rfl, rfl, rfl, rfl⟩

/-- C10: `with_sin` and `with_cos` change only the weight-function table,
setting its kind to sine respectively cosine with the given frequency while
keeping its capacity, length and native handle; the lower bound, the main
workspace and the cycle workspace are exactly those of the input. -/
theorem c10_with_sin_cos_frame (q : QAWF) (omega : Real) :
    (q.with_sin omega).lower_bound = q.lower_bound ∧
    (q.with_sin omega).wkspc = q.wkspc ∧
    (q.with_sin omega).cycle_wkspc = q.cycle_wkspc ∧
    (q.with_sin omega).table.weight = GSLIntegrationQAWOEnum.Sine ∧
    (q.with_sin omega).table.omega = omega ∧
    (q.with_sin omega).table.nintervals = q.table.nintervals ∧
    (q.with_sin omega).table.length = q.table.length ∧
    (q.with_sin omega).table.table = q.table.table ∧
    (q.with_cos omega).lower_bound = q.lower_bound ∧
    (q.with_cos omega).wkspc = q.wkspc ∧
    (q.with_cos omega).cycle_wkspc = q.cycle_wkspc ∧
    (q.with_cos omega).table.weight = GSLIntegrationQAWOEnum.Cosine ∧
    (q.with_cos omega).table.omega = omega ∧
    (q.with_cos omega).table.nintervals = q.table.nintervals ∧
    (q.with_cos omega).table.length = q.table.length ∧
    (q.with_cos omega).table.table = q.table.table :=
  ⟨rfl, rfl, rfl, rfl, rfl, rfl, rfl, rfl,
   rfl, rfl, rfl, rfl, rfl, rfl, rfl, rfl⟩

end Integrators
